import Mathlib

/-!
Verification of the session/authentication negotiation and resource-discovery
layer of a Redfish metrics collector (`src/collector.py`, class
`RedfishMetricsCollector`).

The embedding is a shallow one:

* JSON values are the inductive `Redfish.Json`.
* Python's fallible primitives (`d[k]`, `d.get(k, dflt)`, `k in d`, `xs[0]`,
  `s.lower()`, truthiness) are modelled by total Lean functions returning
  `PyRes`, raising the same exception classes Python would raise
  (`KeyError`, `TypeError`, `AttributeError`, `IndexError`).
* The mutable collector object is the structure `Redfish.St`; every method is
  a function `Env → St → PyRes α × St`.  When a Python exception propagates,
  the state at the moment of the raise is returned alongside the exception
  (mutations made before the raise persist on the object, as in Python).
* Network transport is an oracle `Redfish.Env`: for each command value passed
  to `connect_server` it yields the observable outcome of
  `requests.Session.get` (a response with status and optional decoded JSON
  body, or one of the exception classes the code catches), and for the two
  session-POST attempts it yields the outcome of `requests.Session.post`.
  Wall-clock timing, logging output, TLS and header plumbing carry no
  information used by the claims and are not modelled; the ghost field
  `St.fetchLog` records the sequence of commands handed to `connect_server`.
* `get_base_labels` is embedded including the live (non-commented) lines
  488-512 of the source, which re-run the direct-URL loop, the `Links`
  resolution and `get_chassis_urls` a second time after the first chassis
  pass.
-/

set_option maxHeartbeats 1600000

namespace Redfish

/-- JSON values as decoded by `requests`' `.json()`.  `null` also stands for
Python `None` (the value `dict.get` returns for a missing key with no
default). -/
inductive Json where
  | null : Json
  | bool : Bool → Json
  | num : Int → Json
  | str : String → Json
  | arr : List Json → Json
  | obj : List (String × Json) → Json
deriving Inhabited

/-- Python exception classes that the modelled code can raise or catch. -/
inductive PyErr where
  | keyError
  | typeError
  | attributeError
  | indexError
  | httpError
  | readTimeoutErr
deriving DecidableEq, Repr

/-- Result of running a piece of Python code: a value, or a propagating
exception. -/
inductive PyRes (α : Type) where
  | ok : α → PyRes α
  | exn : PyErr → PyRes α
deriving Repr

def PyRes.isOk {α : Type} : PyRes α → Bool
  | .ok _ => true
  | .exn _ => false

def PyRes.map {α β : Type} (f : α → β) : PyRes α → PyRes β
  | .ok a => .ok (f a)
  | .exn e => .exn e

/-- Python truthiness of a JSON value (`bool(x)`). -/
def Json.truthy : Json → Bool
  | .null => false
  | .bool b => b
  | .num n => n ≠ 0
  | .str s => s ≠ ""
  | .arr xs => ¬ xs.isEmpty
  | .obj fs => ¬ fs.isEmpty

/-- First-match association-list lookup; models Python `dict` lookup (keys in
a `dict` are unique, so first-match is exact). -/
def jlookup : List (String × Json) → String → Option Json
  | [], _ => none
  | (k, v) :: t, key => if k = key then some v else jlookup t key

/-- `d.get(key, dflt)`: total on `dict`s, raises `AttributeError` on any
non-`dict` value. -/
def pyGet (j : Json) (key : String) (dflt : Json) : PyRes Json :=
  match j with
  | .obj fs => .ok ((jlookup fs key).getD dflt)
  | _ => .exn .attributeError

/-- `d[key]` with a string key: `KeyError` when a `dict` lacks the key,
`TypeError` on lists, strings and scalars. -/
def pySub (j : Json) (key : String) : PyRes Json :=
  match j with
  | .obj fs =>
    match jlookup fs key with
    | some v => .ok v
    | none => .exn .keyError
  | _ => .exn .typeError

/-- `xs[0]`: first element of a list, first character of a string;
`IndexError` when empty; `d[0]` on a (string-keyed) `dict` raises
`KeyError`; `TypeError` on scalars. -/
def pyIdx0 (j : Json) : PyRes Json :=
  match j with
  | .arr (x :: _) => .ok x
  | .arr [] => .exn .indexError
  | .str s =>
    match s.toList with
    | c :: _ => .ok (.str (String.mk [c]))
    | [] => .exn .indexError
  | .obj _ => .exn .keyError
  | _ => .exn .typeError

/-- Whether `needle` occurs as a contiguous sublist of `hay`. -/
def listIsInfix (needle hay : List Char) : Bool :=
  match hay with
  | [] => needle.isEmpty
  | _ :: t => needle.isPrefixOf hay || listIsInfix needle t

/-- Whether a list element equals the Python string `k` (Python `==` between
a `str` and a non-`str` JSON value is `False`). -/
def jIsStr (j : Json) (k : String) : Bool :=
  match j with
  | .str s => s = k
  | _ => false

/-- `key in j`: key test on `dict`s, membership on lists, substring test on
strings, `TypeError` on scalars. -/
def pyIn (key : String) (j : Json) : PyRes Bool :=
  match j with
  | .obj fs => .ok (jlookup fs key).isSome
  | .arr xs => .ok (xs.any (fun x => jIsStr x key))
  | .str s => .ok (listIsInfix key.toList s.toList)
  | _ => .exn .typeError

/-- Character-wise lowercasing (Python `str.lower()` restricted to the
character-by-character case mapping; agrees with it on ASCII, which is all
the health/power vocabulary uses).  Defined by structural recursion on the
character list so that proofs can evaluate it. -/
def strLower (s : String) : String := String.mk (s.toList.map Char.toLower)

/-- `x.lower()`: defined on strings only, `AttributeError` otherwise. -/
def pyLower (j : Json) : PyRes String :=
  match j with
  | .str s => .ok (strLower s)
  | _ => .exn .attributeError

/-- `isinstance(x, dict)`. -/
def Json.isObj : Json → Bool
  | .obj _ => true
  | _ => false

/-- `isinstance(x, str)`. -/
def Json.isStr : Json → Bool
  | .str _ => true
  | _ => false

/-- A Python `Optional[str]` (e.g. `response.headers.get(...)`) as the JSON
value Python stores: `None` or the string. -/
def optStr : Option String → Json
  | none => .null
  | some s => .str s

/-- The values stored as metric samples: the integers of the `status` table,
or `math.nan` (used as the summary default).  No floating-point arithmetic is
performed on them in the modelled code. -/
inductive HVal where
  | int : Nat → HVal
  | nan : HVal
deriving DecidableEq, Repr

/-- The `self.status` health-normalisation table (source lines 59-68). -/
def statusTable : List (String × Nat) :=
  [("ok", 0), ("operable", 0), ("enabled", 0), ("good", 0),
   ("critical", 1), ("error", 1), ("warning", 2), ("absent", 0)]

/-- Lookup in the `self.status` table. -/
def statusLookup : String → Option Nat
  | k => List.lookup k statusTable

/-- The `power_states` table of `get_base_labels` (source line 326). -/
def powerLookup : String → Option Nat
  | k => List.lookup k [("off", 0), ("on", 1)]

/-- The fixed-key `self.urls` dictionary (source lines 39-52).  No code path
adds keys beyond these twelve, so a fixed-field structure is exact. -/
structure Urls where
  Systems : Json
  SessionService : Json
  Memory : Json
  ManagedBy : Json
  Processors : Json
  Storage : Json
  Chassis : Json
  Power : Json
  Thermal : Json
  PowerSubsystem : Json
  ThermalSubsystem : Json
  EthernetInterfaces : Json

/-- `self.labels`: initialised to `{"host": host}`, updated once (source line
359) with the four identity keys.  `none` models key absence. -/
structure Labels where
  host : Option Json
  server_manufacturer : Option Json
  server_model : Option Json
  server_serial : Option Json

/-- The mutable fields of `RedfishMetricsCollector` that the modelled methods
read or write, plus the ghost `fetchLog`.  `samples` records the
`(device_type, value)` pairs handed to
`health_summary_metrics.add_sample`. -/
structure St where
  host : Json
  urls : Urls
  labels : Labels
  redfishUp : Nat
  lastHttpCode : Nat
  powerstate : Nat
  serverHealth : Nat
  manufacturer : Json
  model : Json
  serial : Json
  redfishVersion : Json
  sessionUrl : Json
  authToken : Json
  basicAuth : Bool
  systemsUrl : Json
  samples : List (String × HVal)
  fetchLog : List Json

/-- `self.urls` as left by `__init__` (all empty strings). -/
def initUrls : Urls :=
  { Systems := .str "", SessionService := .str "", Memory := .str "",
    ManagedBy := .str "", Processors := .str "", Storage := .str "",
    Chassis := .str "", Power := .str "", Thermal := .str "",
    PowerSubsystem := .str "", ThermalSubsystem := .str "",
    EthernetInterfaces := .str "" }

/-- The object state as left by `__init__` (source lines 23-80). -/
def initSt (host : Json) : St :=
  { host := host
    urls := initUrls
    labels := { host := some host, server_manufacturer := none,
                server_model := none, server_serial := none }
    redfishUp := 0
    lastHttpCode := 0
    powerstate := 0
    serverHealth := 0
    manufacturer := .str ""
    model := .str ""
    serial := .str ""
    redfishVersion := .str "not available"
    sessionUrl := .str ""
    authToken := .str ""
    basicAuth := false
    systemsUrl := .null
    samples := []
    fetchLog := [] }

/-- Observable outcome of `self._session.get(url, ...)` followed by
`raise_for_status()`, as classified by `connect_server`'s handlers: a
response with its status and optionally-decodable JSON body, or one of the
caught exception classes.  (`requests.ConnectTimeout` also subclasses
`ConnectionError`, but in `connect_server` the `HTTPError` /
`ConnectTimeout` / `ReadTimeout` clauses precede the `ConnectionError`
clause, so the four classes below are disjoint outcomes.) -/
inductive GetOutcome where
  | resp : Nat → Option Json → GetOutcome
  | connectTimeout : GetOutcome
  | readTimeout : GetOutcome
  | connError : GetOutcome
  | otherError : GetOutcome

/-- Observable fields of the `requests` response to the session-creation
POST. -/
structure PostResp where
  status : Nat
  xAuthToken : Option String
  location : Option String
  body : Option Json

/-- Outcome of one `self._session.post(sessions_url, ...)` attempt, as
classified by `get_session`'s handlers (`ConnectTimeout` is subsumed by
`connError`, the class its handler catches). -/
inductive PostOutcome where
  | resp : PostResp → PostOutcome
  | connError : PostOutcome
  | readTimeout : PostOutcome

/-- Transport oracle: the outcome of a GET for each command value passed to
`connect_server`, and of the n-th session-POST attempt (n = 1, 2). -/
structure Env where
  get : Json → GetOutcome
  post : Nat → PostOutcome

/-- The error-body logging block of `connect_server` (source lines 287-314):
executed when the request object is a non-2xx/3xx response whose body decoded
to a truthy value.  Its `logging.debug` arguments are evaluated eagerly, so
the subscripts can raise; the produced value is discarded. -/
def errorBodyLog (reqText : Json) : PyRes Unit :=
  match pySub reqText "error" with
  | .exn e => .exn e
  | .ok errv =>
  match pySub errv "code" with
  | .exn e => .exn e
  | .ok _ =>
  match pySub errv "message" with
  | .exn e => .exn e
  | .ok _ =>
  match pyIn "@Message.ExtendedInfo" errv with
  | .exn e => .exn e
  | .ok false => .ok ()
  | .ok true =>
  match pySub errv "@Message.ExtendedInfo" with
  | .exn e => .exn e
  | .ok ext =>
  match ext with
  | .arr _ =>
    match pyIdx0 ext with
    | .exn e => .exn e
    | .ok elem =>
    match pyIn "Message" elem with
    | .exn e => .exn e
    | .ok true =>
      match pySub elem "Message" with
      | .exn e => .exn e
      | .ok _ => .ok ()
    | .ok false => .ok ()
  | .obj fs =>
    match pyIn "Message" (.obj fs) with
    | .exn e => .exn e
    | .ok true =>
      match pySub (.obj fs) "Message" with
      | .exn e => .exn e
      | .ok _ => .ok ()
    | .ok false => .ok ()
  | _ => .ok ()

/-- `connect_server(command, ...)` (source lines 208-318).  Returns the
`server_response` value (the decoded body for 2xx/3xx responses, else the
empty string) and updates `self._last_http_code`; appends the command to the
ghost fetch log.  Auth-header bookkeeping (lines 222-239) has no observable
effect in the model. -/
def connect_server (env : Env) (cmd : Json) (s : St) : PyRes Json × St :=
  match env.get cmd with
  | .connectTimeout =>
    (.ok (.str ""), { s with fetchLog := s.fetchLog ++ [cmd], lastHttpCode := 408 })
  | .readTimeout =>
    (.ok (.str ""), { s with fetchLog := s.fetchLog ++ [cmd], lastHttpCode := 408 })
  | .connError =>
    (.ok (.str ""), { s with fetchLog := s.fetchLog ++ [cmd], lastHttpCode := 444 })
  | .otherError =>
    (.ok (.str ""), { s with fetchLog := s.fetchLog ++ [cmd], lastHttpCode := 500 })
  | .resp status body? =>
    if 200 ≤ status ∧ status < 400 then
      (.ok (body?.getD (.str "")),
       { s with fetchLog := s.fetchLog ++ [cmd], lastHttpCode := status })
    else if (body?.getD (.str "")).truthy then
      match errorBodyLog (body?.getD (.str "")) with
      | .exn e =>
        (.exn e, { s with fetchLog := s.fetchLog ++ [cmd], lastHttpCode := status })
      | .ok _ =>
        (.ok (.str ""), { s with fetchLog := s.fetchLog ++ [cmd], lastHttpCode := status })
    else
      (.ok (.str ""), { s with fetchLog := s.fetchLog ++ [cmd], lastHttpCode := status })

/-- Control flow of a method body: fall through to the next statement,
`return` early, or propagate an exception. -/
inductive Flow (α : Type) where
  | cont : α → Flow α
  | ret : Flow α
  | exn : PyErr → Flow α

/-- The Python local variable `result` of `get_session`: the empty string it
is initialised to (and keeps when every POST attempt raised before
assignment), or the response object of a successful POST call. -/
inductive PostVal where
  | emptyStr : PostVal
  | resp : PostResp → PostVal

/-- `get_session`, lines 84-110: fetch the service root with no auth, record
`RedfishVersion`, and require the `Systems` and `SessionService` links,
storing their `@odata.id` values in `self.urls`. -/
def gs_root (env : Env) (s : St) : Flow Unit × St :=
  match connect_server env (.str "/redfish/v1") s with
  | (.exn e, s) => (.exn e, s)
  | (.ok serverResponse, s) =>
  if serverResponse.truthy = false then (.ret, s)
  else
  match pyIn "RedfishVersion" serverResponse with
  | .exn e => (.exn e, s)
  | .ok hasVersion =>
  match (if hasVersion then pySub serverResponse "RedfishVersion" else .ok s.redfishVersion) with
  | .exn e => (.exn e, s)
  | .ok ver =>
  let s := { s with redfishVersion := ver }
  match pyIn "Systems" serverResponse with
  | .exn e => (.exn e, s)
  | .ok false => (.ret, s)
  | .ok true =>
  match pySub serverResponse "Systems" with
  | .exn e => (.exn e, s)
  | .ok sysv =>
  match pySub sysv "@odata.id" with
  | .exn e => (.exn e, s)
  | .ok sysUrl =>
  let s := { s with urls := { s.urls with Systems := sysUrl } }
  match pyIn "SessionService" serverResponse with
  | .exn e => (.exn e, s)
  | .ok false => (.ret, s)
  | .ok true =>
  match pySub serverResponse "SessionService" with
  | .exn e => (.exn e, s)
  | .ok ssv =>
  match pySub ssv "@odata.id" with
  | .exn e => (.exn e, s)
  | .ok ssUrl =>
  (.cont (), { s with urls := { s.urls with SessionService := ssUrl } })

/-- `get_session`, lines 112-126: fetch the `SessionService` resource with
basic auth; if the recorded HTTP code is not 200, switch to basic
authentication and return; otherwise compute the sessions-collection URL
`session_service['Sessions']['@odata.id']` (both subscripts can raise). -/
def gs_sessRead (env : Env) (s : St) : Flow Unit × St :=
  match connect_server env s.urls.SessionService s with
  | (.exn e, s) => (.exn e, s)
  | (.ok sessionService, s) =>
  if s.lastHttpCode ≠ 200 then (.ret, { s with basicAuth := true })
  else
  match pySub sessionService "Sessions" with
  | .exn e => (.exn e, s)
  | .ok sessions =>
  match pySub sessions "@odata.id" with
  | .exn e => (.exn e, s)
  | .ok _ => (.cont (), s)

/-- `get_session`, lines 128-174: the POST with its single retry.
`raise_for_status()` raises `HTTPError` exactly for statuses ≥ 400.  On the
first attempt, `ConnectionError` triggers the retry, `HTTPError` and
`ReadTimeout` switch to basic auth; inside the retry only `ConnectionError`
is caught (a second connection failure switches to basic auth), so an
`HTTPError` or `ReadTimeout` raised by the retry propagates out of the
method. -/
def gs_post (env : Env) (s : St) : Flow PostVal × St :=
  match env.post 1 with
  | .resp pr =>
    if 400 ≤ pr.status then (.cont (.resp pr), { s with basicAuth := true })
    else (.cont (.resp pr), s)
  | .readTimeout => (.cont .emptyStr, { s with basicAuth := true })
  | .connError =>
    match env.post 2 with
    | .resp pr =>
      if 400 ≤ pr.status then (.exn .httpError, s)
      else (.cont (.resp pr), s)
    | .connError => (.cont .emptyStr, { s with basicAuth := true })
    | .readTimeout => (.exn .readTimeoutErr, s)

/-- `get_session`, lines 176-206: on a truthy (status < 400) response with
status 200 or 201, take the token from the `X-Auth-Token` header (a falsy
token sets the up flag to 0 and returns) and the session URL from the
`Location` header, falling back to the JSON body's `@odata.id`
(`result.json()` failures are caught as `ValueError`; `json_body.get` on a
decoded non-`dict` body raises an uncaught `AttributeError`); a falsy
session URL sets the up flag to 0 and returns, otherwise the session URL is
stored and the up flag is set to 1. -/
def gs_finish (result : PostVal) (s : St) : Flow Unit × St :=
  match result with
  | .emptyStr => (.cont (), s)
  | .resp pr =>
    if pr.status < 400 ∧ (pr.status = 200 ∨ pr.status = 201) then
      let s := { s with authToken := optStr pr.xAuthToken }
      let sessionUrl0 := optStr pr.location
      if s.authToken.truthy = false then (.ret, { s with redfishUp := 0 })
      else
        match (if sessionUrl0.truthy = false then
                 match pr.body with
                 | none => .ok sessionUrl0
                 | some jb =>
                   match jb with
                   | .obj fs => .ok ((jlookup fs "@odata.id").getD .null)
                   | _ => .exn .attributeError
               else .ok sessionUrl0 : PyRes Json) with
        | .exn e => (.exn e, s)
        | .ok su =>
          if su.truthy = false then (.ret, { s with redfishUp := 0 })
          else (.cont (), { s with sessionUrl := su, redfishUp := 1 })
    else (.cont (), s)

/-- `get_session(self)` (source lines 82-206), composed from its four
phases. -/
def get_session (env : Env) (s : St) : PyRes Unit × St :=
  match gs_root env s with
  | (.exn e, s) => (.exn e, s)
  | (.ret, s) => (.ok (), s)
  | (.cont _, s) =>
  match gs_sessRead env s with
  | (.exn e, s) => (.exn e, s)
  | (.ret, s) => (.ok (), s)
  | (.cont _, s) =>
  match gs_post env s with
  | (.exn e, s) => (.exn e, s)
  | (.ret, s) => (.ok (), s)
  | (.cont result, s) =>
  match gs_finish result s with
  | (.exn e, s) => (.exn e, s)
  | (.ret, s) => (.ok (), s)
  | (.cont _, s) => (.ok (), s)

/-- `info.get(key, {}).get("@odata.id", "")`, the link-extraction idiom of
`get_base_labels` (source lines 342, 402, 490). -/
def odata_of (info : Json) (key : String) : PyRes Json :=
  match pyGet info key (.obj []) with
  | .exn e => .exn e
  | .ok v => pyGet v "@odata.id" (.str "")

/-- `get_base_labels`, lines 338-341: fetch the system resource at
`self._systems_url` and require a truthy body. -/
def gbl_fetch_system (env : Env) (su : Json) (s : St) : Flow Json × St :=
  match connect_server env su s with
  | (.exn e, s) => (.exn e, s)
  | (.ok info, s) =>
  if info.truthy = false then (.ret, s) else (.cont info, s)

/-- `get_base_labels`, lines 321-341: fetch the `Systems` collection, require
a truthy body, a truthy `Members` list and a truthy `@odata.id` on its first
member, store it as `self._systems_url`, and fetch the system resource. -/
def gbl_fetch_info (env : Env) (s : St) : Flow Json × St :=
  match connect_server env s.urls.Systems s with
  | (.exn e, s) => (.exn e, s)
  | (.ok systems, s) =>
  if systems.truthy = false then (.ret, s)
  else
  match pyGet systems "Members" (.arr []) with
  | .exn e => (.exn e, s)
  | .ok members =>
  if members.truthy = false then (.ret, s)
  else
  match pyIdx0 members with
  | .exn e => (.exn e, s)
  | .ok member0 =>
  match pyGet member0 "@odata.id" .null with
  | .exn e => (.exn e, s)
  | .ok su =>
  let s := { s with systemsUrl := su }
  if su.truthy = false then (.ret, s)
  else gbl_fetch_system env su s

/-- `get_base_labels`, lines 342-364: store the `EthernetInterfaces` URL,
extract `Manufacturer` / `Model` / `SerialNumber` with defaults `"Custom"` /
`"unknown"` / `""`, return early when manufacturer or model is falsy,
normalise `PowerState` (default `"off"`, unknown values map to 0) and update
`self.labels`. -/
def gbl_identity (info : Json) (s : St) : Flow Unit × St :=
  match odata_of info "EthernetInterfaces" with
  | .exn e => (.exn e, s)
  | .ok ethUrl =>
  let s := { s with urls := { s.urls with EthernetInterfaces := ethUrl } }
  match pyGet info "Manufacturer" (.str "Custom") with
  | .exn e => (.exn e, s)
  | .ok manu =>
  let s := { s with manufacturer := manu }
  match pyGet info "Model" (.str "unknown") with
  | .exn e => (.exn e, s)
  | .ok model =>
  let s := { s with model := model }
  match pyGet info "SerialNumber" (.str "") with
  | .exn e => (.exn e, s)
  | .ok serial =>
  let s := { s with serial := serial }
  if s.manufacturer.truthy = false ∨ s.model.truthy = false then (.ret, s)
  else
  match pyGet info "PowerState" (.str "off") with
  | .exn e => (.exn e, s)
  | .ok ps =>
  match pyLower ps with
  | .exn e => (.exn e, s)
  | .ok psl =>
  let s := { s with powerstate := (powerLookup psl).getD 0 }
  (.cont (), { s with labels :=
    { host := some s.host, server_manufacturer := some s.manufacturer,
      server_model := some s.model, server_serial := some s.serial } })

/-- `self.status.get(status_obj.get("Health", "").lower(), 0)` applied to
`status_obj = server_info.get("Status", {})` (source lines 367-368): the
overall-health normalisation with default 0. -/
def server_health_value (info : Json) : PyRes Nat :=
  match pyGet info "Status" (.obj []) with
  | .exn e => .exn e
  | .ok statusObj =>
  match pyGet statusObj "Health" (.str "") with
  | .exn e => .exn e
  | .ok h =>
  match pyLower h with
  | .exn e => .exn e
  | .ok hl => .ok ((statusLookup hl).getD 0)

/-- `self.status.get(summary.get("Status", {}).get("Health", "").lower(),
math.nan)` (source lines 380 and 394): the summary-health value with default
`math.nan`. -/
def summary_health_value (summary : Json) : PyRes HVal :=
  match pyGet summary "Status" (.obj []) with
  | .exn e => .exn e
  | .ok statusObj =>
  match pyGet statusObj "Health" (.str "") with
  | .exn e => .exn e
  | .ok h =>
  match pyLower h with
  | .exn e => .exn e
  | .ok hl =>
    .ok (match statusLookup hl with
         | some n => .int n
         | none => .nan)

/-- The processor-summary sample value (source lines 372-381): the label
`get`s on `Model` and `Count` are evaluated first (they can raise), then the
sample value. -/
def procSampleValue (psum : Json) : PyRes HVal :=
  match pyGet psum "Model" (.str "unknown") with
  | .exn e => .exn e
  | .ok _ =>
  match pyGet psum "Count" (.str "unknown") with
  | .exn e => .exn e
  | .ok _ => summary_health_value psum

/-- The memory-summary sample value (source lines 387-395). -/
def memSampleValue (msum : Json) : PyRes HVal :=
  match pyGet msum "TotalSystemMemory" (.str "unknown") with
  | .exn e => .exn e
  | .ok _ => summary_health_value msum

/-- `get_base_labels`, lines 366-396: store the normalised overall health and
add a `redfish_health_summary` sample for each truthy
`ProcessorSummary` / `MemorySummary`. -/
def gbl_health (info : Json) (s : St) : Flow Unit × St :=
  match server_health_value info with
  | .exn e => (.exn e, s)
  | .ok hv =>
  let s := { s with serverHealth := hv }
  match pyGet info "ProcessorSummary" (.obj []) with
  | .exn e => (.exn e, s)
  | .ok psum =>
  match (if psum.truthy then (procSampleValue psum).map some else .ok none) with
  | .exn e => (.exn e, s)
  | .ok pv? =>
  let s := match pv? with
           | some v => { s with samples := s.samples ++ [("processor_summary", v)] }
           | none => s
  match pyGet info "MemorySummary" (.obj []) with
  | .exn e => (.exn e, s)
  | .ok msum =>
  match (if msum.truthy then (memSampleValue msum).map some else .ok none) with
  | .exn e => (.exn e, s)
  | .ok mv? =>
  let s := match mv? with
           | some v => { s with samples := s.samples ++ [("memory_summary", v)] }
           | none => s
  (.cont (), s)

/-- `get_base_labels`, lines 399-413: set the six direct component URLs from
the system resource, then resolve `Links.Chassis` and `Links.ManagedBy`
(first entry; `ref["@odata.id"]` when the entry is a `dict` — a `KeyError`
if the key is missing — otherwise the entry itself). -/
def gbl_set_urls_v1 (info : Json) (s : St) : Flow Unit × St :=
  match odata_of info "Processors" with
  | .exn e => (.exn e, s)
  | .ok v =>
  let s := { s with urls := { s.urls with Processors := v } }
  match odata_of info "Memory" with
  | .exn e => (.exn e, s)
  | .ok v =>
  let s := { s with urls := { s.urls with Memory := v } }
  match odata_of info "Storage" with
  | .exn e => (.exn e, s)
  | .ok v =>
  let s := { s with urls := { s.urls with Storage := v } }
  match odata_of info "Power" with
  | .exn e => (.exn e, s)
  | .ok v =>
  let s := { s with urls := { s.urls with Power := v } }
  match odata_of info "Thermal" with
  | .exn e => (.exn e, s)
  | .ok v =>
  let s := { s with urls := { s.urls with Thermal := v } }
  match odata_of info "EthernetInterfaces" with
  | .exn e => (.exn e, s)
  | .ok v =>
  let s := { s with urls := { s.urls with EthernetInterfaces := v } }
  match pyGet info "Links" (.obj []) with
  | .exn e => (.exn e, s)
  | .ok links =>
  match pyGet links "Chassis" (.arr []) with
  | .exn e => (.exn e, s)
  | .ok chassisList =>
  match (if chassisList.truthy then
           match pyIdx0 chassisList with
           | .exn e => .exn e
           | .ok cref =>
             if cref.isObj then (pySub cref "@odata.id").map some
             else .ok (some cref)
         else .ok none : PyRes (Option Json)) with
  | .exn e => (.exn e, s)
  | .ok cv? =>
  let s := match cv? with
           | some v => { s with urls := { s.urls with Chassis := v } }
           | none => s
  match pyGet links "ManagedBy" (.arr []) with
  | .exn e => (.exn e, s)
  | .ok managerList =>
  match (if managerList.truthy then
           match pyIdx0 managerList with
           | .exn e => .exn e
           | .ok mref =>
             if mref.isObj then (pySub mref "@odata.id").map some
             else .ok (some mref)
         else .ok none : PyRes (Option Json)) with
  | .exn e => (.exn e, s)
  | .ok mv? =>
  let s := match mv? with
           | some v => { s with urls := { s.urls with ManagedBy := v } }
           | none => s
  (.cont (), s)

/-- `get_base_labels`, the live lines 488-507 (they follow the block of
commented-out code, at method-body indentation, so they execute after the
first `get_chassis_urls()` call): re-set the six direct component URLs from
the system resource, then re-resolve `Links.Chassis` / `Links.ManagedBy` —
here a `dict` entry is read with `.get("@odata.id", "")` and a non-`dict`
non-`str` entry leaves the URL untouched. -/
def gbl_set_urls_v2 (info : Json) (s : St) : Flow Unit × St :=
  match odata_of info "Processors" with
  | .exn e => (.exn e, s)
  | .ok v =>
  let s := { s with urls := { s.urls with Processors := v } }
  match odata_of info "Memory" with
  | .exn e => (.exn e, s)
  | .ok v =>
  let s := { s with urls := { s.urls with Memory := v } }
  match odata_of info "Storage" with
  | .exn e => (.exn e, s)
  | .ok v =>
  let s := { s with urls := { s.urls with Storage := v } }
  match odata_of info "Power" with
  | .exn e => (.exn e, s)
  | .ok v =>
  let s := { s with urls := { s.urls with Power := v } }
  match odata_of info "Thermal" with
  | .exn e => (.exn e, s)
  | .ok v =>
  let s := { s with urls := { s.urls with Thermal := v } }
  match odata_of info "EthernetInterfaces" with
  | .exn e => (.exn e, s)
  | .ok v =>
  let s := { s with urls := { s.urls with EthernetInterfaces := v } }
  match pyGet info "Links" (.obj []) with
  | .exn e => (.exn e, s)
  | .ok links1 =>
  match pyGet links1 "Chassis" (.arr []) with
  | .exn e => (.exn e, s)
  | .ok chassisLinks =>
  match (if chassisLinks.truthy then
           match pyIdx0 chassisLinks with
           | .exn e => .exn e
           | .ok cref =>
             if cref.isObj then (pyGet cref "@odata.id" (.str "")).map some
             else if cref.isStr then .ok (some cref)
             else .ok none
         else .ok none : PyRes (Option Json)) with
  | .exn e => (.exn e, s)
  | .ok cv? =>
  let s := match cv? with
           | some v => { s with urls := { s.urls with Chassis := v } }
           | none => s
  match pyGet info "Links" (.obj []) with
  | .exn e => (.exn e, s)
  | .ok links2 =>
  match pyGet links2 "ManagedBy" (.arr []) with
  | .exn e => (.exn e, s)
  | .ok managerLinks =>
  match (if managerLinks.truthy then
           match pyIdx0 managerLinks with
           | .exn e => .exn e
           | .ok mref =>
             if mref.isObj then (pyGet mref "@odata.id" (.str "")).map some
             else if mref.isStr then .ok (some mref)
             else .ok none
         else .ok none : PyRes (Option Json)) with
  | .exn e => (.exn e, s)
  | .ok mv? =>
  let s := match mv? with
           | some v => { s with urls := { s.urls with ManagedBy := v } }
           | none => s
  (.cont (), s)

/-- One iteration of the `get_chassis_urls` loop (source lines 522-524): the
new value of `self.urls[key]`, given its old value — assigned
`chassis_data[key]['@odata.id']` exactly when `key in chassis_data`. -/
def gcu_step (chassisData : Json) (key : String) (old : Json) : PyRes Json :=
  match pyIn key chassisData with
  | .exn e => .exn e
  | .ok false => .ok old
  | .ok true =>
    match pySub chassisData key with
    | .exn e => .exn e
    | .ok v => pySub v "@odata.id"

/-- `get_chassis_urls(self)` (source lines 514-526): fetch `self.urls
['Chassis']` (unconditionally — there is no empty-URL guard), return `None`
on a falsy body, otherwise assign each of `PowerSubsystem`, `Power`,
`ThermalSubsystem`, `Thermal` that the chassis document carries, and return
the chassis document. -/
def get_chassis_urls (env : Env) (s : St) : PyRes Json × St :=
  match connect_server env s.urls.Chassis s with
  | (.exn e, s) => (.exn e, s)
  | (.ok chassisData, s) =>
  if chassisData.truthy = false then (.ok .null, s)
  else
  match gcu_step chassisData "PowerSubsystem" s.urls.PowerSubsystem with
  | .exn e => (.exn e, s)
  | .ok v =>
  let s := { s with urls := { s.urls with PowerSubsystem := v } }
  match gcu_step chassisData "Power" s.urls.Power with
  | .exn e => (.exn e, s)
  | .ok v =>
  let s := { s with urls := { s.urls with Power := v } }
  match gcu_step chassisData "ThermalSubsystem" s.urls.ThermalSubsystem with
  | .exn e => (.exn e, s)
  | .ok v =>
  let s := { s with urls := { s.urls with ThermalSubsystem := v } }
  match gcu_step chassisData "Thermal" s.urls.Thermal with
  | .exn e => (.exn e, s)
  | .ok v =>
  (.ok chassisData, { s with urls := { s.urls with Thermal := v } })

/-- `get_base_labels(self)` (source lines 319-418 plus the live lines
488-512): the discovery pass, including the second direct-URL/Links
application and the second `get_chassis_urls()` call. -/
def get_base_labels (env : Env) (s : St) : PyRes Unit × St :=
  match gbl_fetch_info env s with
  | (.exn e, s) => (.exn e, s)
  | (.ret, s) => (.ok (), s)
  | (.cont info, s) =>
  match gbl_identity info s with
  | (.exn e, s) => (.exn e, s)
  | (.ret, s) => (.ok (), s)
  | (.cont _, s) =>
  match gbl_health info s with
  | (.exn e, s) => (.exn e, s)
  | (.ret, s) => (.ok (), s)
  | (.cont _, s) =>
  match gbl_set_urls_v1 info s with
  | (.exn e, s) => (.exn e, s)
  | (.ret, s) => (.ok (), s)
  | (.cont _, s) =>
  match get_chassis_urls env s with
  | (.exn e, s) => (.exn e, s)
  | (.ok _, s) =>
  match gbl_set_urls_v2 info s with
  | (.exn e, s) => (.exn e, s)
  | (.ret, s) => (.ok (), s)
  | (.cont _, s) =>
  match get_chassis_urls env s with
  | (.exn e, s) => (.exn e, s)
  | (.ok _, s) => (.ok (), s)

/-! ## Helper lemmas -/

/-- `connect_server` writes only `_last_http_code` and the ghost fetch log:
every other object field is unchanged, on every branch (including when the
error-body logging block raises). -/
theorem connect_server_frame (env : Env) (cmd : Json) (s : St) :
    ((connect_server env cmd s).2.urls = s.urls) ∧
    ((connect_server env cmd s).2.labels = s.labels) ∧
    ((connect_server env cmd s).2.redfishUp = s.redfishUp) ∧
    ((connect_server env cmd s).2.powerstate = s.powerstate) ∧
    ((connect_server env cmd s).2.serverHealth = s.serverHealth) ∧
    ((connect_server env cmd s).2.manufacturer = s.manufacturer) ∧
    ((connect_server env cmd s).2.model = s.model) ∧
    ((connect_server env cmd s).2.serial = s.serial) ∧
    ((connect_server env cmd s).2.redfishVersion = s.redfishVersion) ∧
    ((connect_server env cmd s).2.sessionUrl = s.sessionUrl) ∧
    ((connect_server env cmd s).2.authToken = s.authToken) ∧
    ((connect_server env cmd s).2.basicAuth = s.basicAuth) ∧
    ((connect_server env cmd s).2.systemsUrl = s.systemsUrl) ∧
    ((connect_server env cmd s).2.samples = s.samples) ∧
    ((connect_server env cmd s).2.host = s.host) := by
  cases h : env.get cmd with
  | connectTimeout => unfold connect_server; rw [h]; exact ⟨rfl, rfl, rfl, rfl, rfl, rfl, rfl, rfl, rfl, rfl, rfl, rfl, rfl, rfl, rfl⟩
  | readTimeout => unfold connect_server; rw [h]; exact ⟨rfl, rfl, rfl, rfl, rfl, rfl, rfl, rfl, rfl, rfl, rfl, rfl, rfl, rfl, rfl⟩
  | connError => unfold connect_server; rw [h]; exact ⟨rfl, rfl, rfl, rfl, rfl, rfl, rfl, rfl, rfl, rfl, rfl, rfl, rfl, rfl, rfl⟩
  | otherError => unfold connect_server; rw [h]; exact ⟨rfl, rfl, rfl, rfl, rfl, rfl, rfl, rfl, rfl, rfl, rfl, rfl, rfl, rfl, rfl⟩
  | resp status body? =>
    unfold connect_server
    rw [h]
    dsimp only
    split
    · exact ⟨rfl, rfl, rfl, rfl, rfl, rfl, rfl, rfl, rfl, rfl, rfl, rfl, rfl, rfl, rfl⟩
    · split
      · cases errorBodyLog (body?.getD (Json.str "")) <;> exact ⟨rfl, rfl, rfl, rfl, rfl, rfl, rfl, rfl, rfl, rfl, rfl, rfl, rfl, rfl, rfl⟩
      · exact ⟨rfl, rfl, rfl, rfl, rfl, rfl, rfl, rfl, rfl, rfl, rfl, rfl, rfl, rfl, rfl⟩

/-- `connect_server` appends exactly its command to the ghost fetch log. -/
theorem connect_server_log (env : Env) (cmd : Json) (s : St) :
    (connect_server env cmd s).2.fetchLog = s.fetchLog ++ [cmd] := by
  cases h : env.get cmd with
  | connectTimeout => unfold connect_server; rw [h]
  | readTimeout => unfold connect_server; rw [h]
  | connError => unfold connect_server; rw [h]
  | otherError => unfold connect_server; rw [h]
  | resp status body? =>
    unfold connect_server
    rw [h]
    dsimp only
    split
    · rfl
    · split
      · cases errorBodyLog (body?.getD (Json.str "")) <;> rfl
      · rfl

/-- The value `get_chassis_urls` leaves in a chassis-overwritable entry,
given the chassis document fields: the chassis-advertised link when the key
is present, the old value otherwise. -/
def chassisVal (fs : List (String × Json)) (key : String) (old : Json) : Json :=
  match jlookup fs key with
  | none => old
  | some v =>
    match pySub v "@odata.id" with
    | .ok u => u
    | .exn _ => old

/-- The per-key loop step of `get_chassis_urls`, on a `dict` chassis document
whose present key (if any) carries an `@odata.id`-subscriptable value:
it yields the chassis-advertised link when the key is present and keeps the
old value otherwise. -/
theorem gcu_step_wf (fs : List (String × Json)) (key : String) (old : Json)
    (w : ∀ v, jlookup fs key = some v → (pySub v "@odata.id").isOk = true) :
    gcu_step (.obj fs) key old = .ok (chassisVal fs key old) := by
  unfold chassisVal
  cases h : jlookup fs key with
  | none =>
    unfold gcu_step
    rw [show pyIn key (Json.obj fs) = .ok false by simp [pyIn, h]]
  | some v =>
    have hw := w v h
    cases hu : pySub v "@odata.id" with
    | exn e => rw [hu] at hw; simp [PyRes.isOk] at hw
    | ok u =>
      unfold gcu_step
      rw [show pyIn key (Json.obj fs) = .ok true by simp [pyIn, h]]
      rw [show pySub (Json.obj fs) key = .ok v by simp [pySub, h]]
      simp [hu]

/-! ## C10 -/

/-- `get_chassis_urls` touches at most the four chassis ResourceMap entries;
all the other listed fields are preserved on every branch. -/
theorem gcu_frame_all (env : Env) (s : St) :
    ((get_chassis_urls env s).2.urls.Systems = s.urls.Systems) ∧
    ((get_chassis_urls env s).2.urls.SessionService = s.urls.SessionService) ∧
    ((get_chassis_urls env s).2.urls.Memory = s.urls.Memory) ∧
    ((get_chassis_urls env s).2.urls.ManagedBy = s.urls.ManagedBy) ∧
    ((get_chassis_urls env s).2.urls.Processors = s.urls.Processors) ∧
    ((get_chassis_urls env s).2.urls.Storage = s.urls.Storage) ∧
    ((get_chassis_urls env s).2.urls.Chassis = s.urls.Chassis) ∧
    ((get_chassis_urls env s).2.urls.EthernetInterfaces = s.urls.EthernetInterfaces) ∧
    ((get_chassis_urls env s).2.manufacturer = s.manufacturer) ∧
    ((get_chassis_urls env s).2.model = s.model) ∧
    ((get_chassis_urls env s).2.serial = s.serial) ∧
    ((get_chassis_urls env s).2.labels = s.labels) ∧
    ((get_chassis_urls env s).2.serverHealth = s.serverHealth) ∧
    ((get_chassis_urls env s).2.powerstate = s.powerstate) ∧
    ((get_chassis_urls env s).2.redfishUp = s.redfishUp) := by
  have hf := connect_server_frame env s.urls.Chassis s
  unfold get_chassis_urls
  rcases hcs : connect_server env s.urls.Chassis s with ⟨r, s₁⟩
  rw [hcs] at hf
  obtain ⟨hu, hl, hup, hpw, hsh, hm, hmo, hse, -, -, -, -, -, -, -⟩ := hf
  cases r with
  | exn e => simp_all
  | ok cd =>
    dsimp only
    dsimp only at hu hl hup hpw hsh hm hmo hse
    repeat' split <;> (try simp_all)

/-- C10: `get_chassis_urls` modifies at most the four ResourceMap entries
`PowerSubsystem`, `Power`, `ThermalSubsystem`, `Thermal`; every other
ResourceMap entry, the identity fields, the labels, the health code, the
power state and the up flag are unchanged by the call (on every branch,
including exceptional ones). -/
theorem C10_gcu_frame (env : Env) (s : St) :
    ((get_chassis_urls env s).2.urls.Systems = s.urls.Systems) ∧
    ((get_chassis_urls env s).2.urls.SessionService = s.urls.SessionService) ∧
    ((get_chassis_urls env s).2.urls.Memory = s.urls.Memory) ∧
    ((get_chassis_urls env s).2.urls.ManagedBy = s.urls.ManagedBy) ∧
    ((get_chassis_urls env s).2.urls.Processors = s.urls.Processors) ∧
    ((get_chassis_urls env s).2.urls.Storage = s.urls.Storage) ∧
    ((get_chassis_urls env s).2.urls.Chassis = s.urls.Chassis) ∧
    ((get_chassis_urls env s).2.urls.EthernetInterfaces = s.urls.EthernetInterfaces) ∧
    ((get_chassis_urls env s).2.manufacturer = s.manufacturer) ∧
    ((get_chassis_urls env s).2.model = s.model) ∧
    ((get_chassis_urls env s).2.serial = s.serial) ∧
    ((get_chassis_urls env s).2.labels = s.labels) ∧
    ((get_chassis_urls env s).2.serverHealth = s.serverHealth) ∧
    ((get_chassis_urls env s).2.powerstate = s.powerstate) ∧
    ((get_chassis_urls env s).2.redfishUp = s.redfishUp) :=
  gcu_frame_all env s

/-! ## C7 -/

/-- C7 (amended): when the resolved `Chassis` URL is the empty string,
`get_chassis_urls` is **not** a no-op on the transport: it still issues
exactly one fetch, with the empty path (i.e. a GET of `https://{target}`);
when that fetch yields no truthy JSON body, the call returns `None` without
error and leaves the ResourceMap unchanged. -/
theorem C7_empty_chassis (env : Env) (s : St) (b : Json)
    (hc : s.urls.Chassis = .str "")
    (hb : (connect_server env (.str "") s).1 = .ok b)
    (ht : b.truthy = false) :
    get_chassis_urls env s = (.ok .null, (connect_server env (.str "") s).2) ∧
    (connect_server env (.str "") s).2.urls = s.urls ∧
    (connect_server env (.str "") s).2.fetchLog = s.fetchLog ++ [.str ""] := by
  refine ⟨?_, (connect_server_frame env (.str "") s).1, connect_server_log env (.str "") s⟩
  unfold get_chassis_urls
  rw [hc]
  rcases hcs : connect_server env (.str "") s with ⟨r, s₁⟩
  rw [hcs] at hb
  dsimp only at hb
  subst hb
  simp [ht]

/-- Environment for the C7 witness: every GET (in particular the one for the
empty path) fails with a 404 carrying no JSON body. -/
def c7wEnv : Env :=
  { get := fun _ => .resp 404 none
    post := fun _ => .connError }

theorem C7_empty_chassis_witness :
    get_chassis_urls c7wEnv (initSt (.str "h")) =
      (.ok .null, (connect_server c7wEnv (.str "") (initSt (.str "h"))).2) ∧
    (connect_server c7wEnv (.str "") (initSt (.str "h"))).2.urls = (initSt (.str "h")).urls ∧
    (connect_server c7wEnv (.str "") (initSt (.str "h"))).2.fetchLog =
      (initSt (.str "h")).fetchLog ++ [.str ""] :=
  C7_empty_chassis c7wEnv (initSt (.str "h")) (.str "") rfl rfl rfl

/-- Environment for the C7 counterexample: a GET of the empty path returns a
JSON body that carries a `Power` link. -/
def c7cEnv : Env :=
  { get := fun c =>
      match c with
      | .str "" => .resp 200 (some (.obj [("Power", .obj [("@odata.id", .str "/x")])]))
      | _ => .otherError
    post := fun _ => .connError }

/-- C7 counterexample: from the freshly-initialised state (whose `Chassis`
URL is the empty string), `get_chassis_urls` issues a fetch (the fetch log
grows by the empty command) and can even change the ResourceMap (the `Power`
entry goes from `""` to `"/x"`), so it is not a no-op. -/
theorem C7_counterexample :
    ((initSt (.str "h")).urls.Chassis = .str "") ∧
    ((initSt (.str "h")).urls.Power = .str "") ∧
    ((get_chassis_urls c7cEnv (initSt (.str "h"))).2.fetchLog = [.str ""]) ∧
    ((get_chassis_urls c7cEnv (initSt (.str "h"))).2.urls.Power = .str "/x") :=
  ⟨rfl, rfl, rfl, rfl⟩

/-! ## C8 -/

/-- C8 (amended): for every chassis document that is a JSON object whose
present keys among `PowerSubsystem`, `Power`, `ThermalSubsystem`, `Thermal`
each carry an `@odata.id`-subscriptable value, `get_chassis_urls` overwrites
a ResourceMap entry among those four exactly when the chassis document
carries that key (chassis precedence), and entries whose keys are absent
keep their prior value. -/
theorem C8_chassis_overwrite (env : Env) (s : St) (fs : List (String × Json))
    (hcs : (connect_server env s.urls.Chassis s).1 = .ok (.obj fs))
    (hne : (Json.obj fs).truthy = true)
    (w1 : ∀ v, jlookup fs "PowerSubsystem" = some v → (pySub v "@odata.id").isOk = true)
    (w2 : ∀ v, jlookup fs "Power" = some v → (pySub v "@odata.id").isOk = true)
    (w3 : ∀ v, jlookup fs "ThermalSubsystem" = some v → (pySub v "@odata.id").isOk = true)
    (w4 : ∀ v, jlookup fs "Thermal" = some v → (pySub v "@odata.id").isOk = true) :
    (get_chassis_urls env s).1 = .ok (.obj fs) ∧
    (get_chassis_urls env s).2.urls.PowerSubsystem =
      chassisVal fs "PowerSubsystem" s.urls.PowerSubsystem ∧
    (get_chassis_urls env s).2.urls.Power = chassisVal fs "Power" s.urls.Power ∧
    (get_chassis_urls env s).2.urls.ThermalSubsystem =
      chassisVal fs "ThermalSubsystem" s.urls.ThermalSubsystem ∧
    (get_chassis_urls env s).2.urls.Thermal = chassisVal fs "Thermal" s.urls.Thermal := by
  have hu : (connect_server env s.urls.Chassis s).2.urls = s.urls :=
    (connect_server_frame env s.urls.Chassis s).1
  unfold get_chassis_urls
  rcases h : connect_server env s.urls.Chassis s with ⟨r, s₁⟩
  rw [h] at hcs hu
  dsimp only at hcs hu
  subst hcs
  dsimp only
  simp only [hne]
  rw [gcu_step_wf fs "PowerSubsystem" s₁.urls.PowerSubsystem w1]
  dsimp only
  rw [gcu_step_wf fs "Power" s₁.urls.Power w2]
  dsimp only
  rw [gcu_step_wf fs "ThermalSubsystem" s₁.urls.ThermalSubsystem w3]
  dsimp only
  rw [gcu_step_wf fs "Thermal" s₁.urls.Thermal w4]
  simp [hu]

/-- The chassis document of the C8 witness: carries `Thermal` and `Power`
links, no `PowerSubsystem` / `ThermalSubsystem`. -/
def c8wFs : List (String × Json) :=
  [("Thermal", .obj [("@odata.id", .str "/ch/th")]),
   ("Power", .obj [("@odata.id", .str "/ch/p")])]

/-- Starting state for the C8 witness: the system-level pass already stored
a `Thermal` URL, the chassis URL is resolved. -/
def c8wSt : St :=
  { initSt (.str "h") with
    urls := { initUrls with Chassis := .str "/ch0", Thermal := .str "/sys/th" } }

/-- Environment for the C8 witness. -/
def c8wEnv : Env :=
  { get := fun c =>
      match c with
      | .str "/ch0" => .resp 200 (some (.obj c8wFs))
      | _ => .otherError
    post := fun _ => .connError }

theorem C8_chassis_overwrite_witness :
    (get_chassis_urls c8wEnv c8wSt).1 = .ok (.obj c8wFs) ∧
    (get_chassis_urls c8wEnv c8wSt).2.urls.PowerSubsystem =
      chassisVal c8wFs "PowerSubsystem" c8wSt.urls.PowerSubsystem ∧
    (get_chassis_urls c8wEnv c8wSt).2.urls.Power = chassisVal c8wFs "Power" c8wSt.urls.Power ∧
    (get_chassis_urls c8wEnv c8wSt).2.urls.ThermalSubsystem =
      chassisVal c8wFs "ThermalSubsystem" c8wSt.urls.ThermalSubsystem ∧
    (get_chassis_urls c8wEnv c8wSt).2.urls.Thermal = chassisVal c8wFs "Thermal" c8wSt.urls.Thermal :=
  C8_chassis_overwrite c8wEnv c8wSt c8wFs rfl rfl
    (fun v hv => by cases hv) (fun v hv => by cases hv; rfl)
    (fun v hv => by cases hv) (fun v hv => by cases hv; rfl)

/-- Starting state for the C8 counterexample. -/
def c8cSt : St :=
  { initSt (.str "h") with
    urls := { initUrls with Chassis := .str "/ch0", Thermal := .str "/sys/th" } }

/-- Environment for the C8 counterexample: the chassis document carries the
key `Thermal`, but its value is the number 7 rather than a link object. -/
def c8cEnv : Env :=
  { get := fun c =>
      match c with
      | .str "/ch0" => .resp 200 (some (.obj [("Thermal", .num 7)]))
      | _ => .otherError
    post := fun _ => .connError }

/-- C8 counterexample: the chassis document carries the key `Thermal`
(`"Thermal" in chassis_data` is true), yet `get_chassis_urls` does not
overwrite the `Thermal` entry — it raises an uncaught `TypeError` from
`chassis_data['Thermal']['@odata.id']` and leaves the entry at its prior
value — so "overwrites if and only if the document carries the key" fails
as stated for arbitrary chassis documents. -/
theorem C8_counterexample :
    (pyIn "Thermal" (.obj [("Thermal", Json.num 7)]) = .ok true) ∧
    ((get_chassis_urls c8cEnv c8cSt).1 = .exn .typeError) ∧
    ((get_chassis_urls c8cEnv c8cSt).2.urls.Thermal = .str "/sys/th") :=
  ⟨rfl, rfl, rfl⟩

/-! ## C5 -/

/-- Evaluation of the overall-health expression on a document whose
`Status.Health` is the string `s`. -/
theorem server_health_value_str (s : String) :
    server_health_value (.obj [("Status", .obj [("Health", .str s)])]) =
      .ok ((statusLookup (strLower s)).getD 0) := rfl

/-- Evaluation of the summary-health expression on a summary whose
`Status.Health` is the string `s`. -/
theorem summary_health_value_str (s : String) :
    summary_health_value (.obj [("Status", .obj [("Health", .str s)])]) =
      .ok (match statusLookup (strLower s) with
           | some n => .int n
           | none => .nan) := rfl

/-- C5 (amended): the health normalisation is total and case-insensitive —
every casing of OK/Operable/Enabled/Good/Absent maps to 0, Warning to 2,
Critical and Error to 1, and any other or missing value maps to 0 for the
overall server health; the *same* case-insensitive table is applied to the
processor/memory summary values, but with default `math.nan` (not 0) for
unknown or missing values. -/
theorem C5_health_mapping (s : String) :
    (strLower s = "ok" ∨ strLower s = "operable" ∨ strLower s = "enabled" ∨
       strLower s = "good" ∨ strLower s = "absent" →
     server_health_value (.obj [("Status", .obj [("Health", .str s)])]) = .ok 0 ∧
     summary_health_value (.obj [("Status", .obj [("Health", .str s)])]) = .ok (.int 0)) ∧
    (strLower s = "warning" →
     server_health_value (.obj [("Status", .obj [("Health", .str s)])]) = .ok 2 ∧
     summary_health_value (.obj [("Status", .obj [("Health", .str s)])]) = .ok (.int 2)) ∧
    (strLower s = "critical" ∨ strLower s = "error" →
     server_health_value (.obj [("Status", .obj [("Health", .str s)])]) = .ok 1 ∧
     summary_health_value (.obj [("Status", .obj [("Health", .str s)])]) = .ok (.int 1)) ∧
    (statusLookup (strLower s) = none →
     server_health_value (.obj [("Status", .obj [("Health", .str s)])]) = .ok 0 ∧
     summary_health_value (.obj [("Status", .obj [("Health", .str s)])]) = .ok .nan) ∧
    (server_health_value (.obj []) = .ok 0 ∧ summary_health_value (.obj []) = .ok .nan) := by
  refine ⟨?_, ?_, ?_, ?_, rfl, rfl⟩
  · rintro (h | h | h | h | h) <;>
      rw [server_health_value_str, summary_health_value_str, h] <;> exact ⟨rfl, rfl⟩
  · intro h
    rw [server_health_value_str, summary_health_value_str, h]
    exact ⟨rfl, rfl⟩
  · rintro (h | h) <;>
      rw [server_health_value_str, summary_health_value_str, h] <;> exact ⟨rfl, rfl⟩
  · intro h
    rw [server_health_value_str, summary_health_value_str, h]
    exact ⟨rfl, rfl⟩

theorem C5_health_mapping_witness :
    (server_health_value (.obj [("Status", .obj [("Health", .str "WaRNing")])]) = .ok 2 ∧
     summary_health_value (.obj [("Status", .obj [("Health", .str "WaRNing")])]) = .ok (.int 2)) ∧
    (server_health_value (.obj [("Status", .obj [("Health", .str "oK")])]) = .ok 0 ∧
     summary_health_value (.obj [("Status", .obj [("Health", .str "oK")])]) = .ok (.int 0)) :=
  ⟨(C5_health_mapping "WaRNing").2.1 rfl, (C5_health_mapping "oK").1 (Or.inl rfl)⟩

/-- The `Systems` collection used by discovery-pass counterexamples. -/
def sysColl : Json := .obj [("Members", .arr [.obj [("@odata.id", .str "/sys0")]])]

/-- System document for the C5 counterexample: its `ProcessorSummary` health
is an unknown string. -/
def c5SysDoc : Json :=
  .obj [("Manufacturer", .str "Acme"), ("Model", .str "M1"),
        ("ProcessorSummary", .obj [("Status", .obj [("Health", .str "Strange")])])]

/-- Environment for the C5 counterexample. -/
def c5cEnv : Env :=
  { get := fun c =>
      match c with
      | .str "/sys" => .resp 200 (some sysColl)
      | .str "/sys0" => .resp 200 (some c5SysDoc)
      | _ => .otherError
    post := fun _ => .connError }

/-- Starting state for the discovery-pass counterexamples: the state
`get_session` leaves behind (only `Systems` / `SessionService` resolved). -/
def discSt : St :=
  { initSt (.str "h") with
    urls := { initUrls with Systems := .str "/sys", SessionService := .str "/ss" } }

/-- C5 counterexample: an unknown processor-summary health value is recorded
as `math.nan`, not 0 — the summary default differs from the overall-health
default (source line 380 uses `math.nan`, line 368 uses `0`). -/
theorem C5_counterexample :
    (summary_health_value (.obj [("Status", .obj [("Health", .str "Strange")])]) = .ok .nan) ∧
    (HVal.nan ≠ HVal.int 0) ∧
    ((get_base_labels c5cEnv discSt).2.samples = [("processor_summary", HVal.nan)]) ∧
    ((get_base_labels c5cEnv discSt).2.serverHealth = 0) :=
  ⟨rfl, by decide, rfl, rfl⟩

/-! ## C9 -/

/-- C9 (amended): when the identity fields are *absent* from the system
document (and the other fields `gbl_identity` touches are well-typed),
discovery populates the defaults — manufacturer `"Custom"`, model
`"unknown"`, serial `""` — and continues (the identity step hands control to
the rest of the pass, so the remaining resource URLs are still resolved).
A present-but-falsy `Manufacturer` or `Model` is stored as-is and aborts the
pass instead (see the counterexample). -/
theorem C9_identity_defaults (fs : List (String × Json)) (s : St)
    (hman : jlookup fs "Manufacturer" = none)
    (hmod : jlookup fs "Model" = none)
    (hser : jlookup fs "SerialNumber" = none)
    (heth : jlookup fs "EthernetInterfaces" = none ∨
            ∃ gs, jlookup fs "EthernetInterfaces" = some (.obj gs))
    (hpow : jlookup fs "PowerState" = none ∨
            ∃ ps, jlookup fs "PowerState" = some (.str ps)) :
    ((gbl_identity (.obj fs) s).1 = .cont ()) ∧
    ((gbl_identity (.obj fs) s).2.manufacturer = .str "Custom") ∧
    ((gbl_identity (.obj fs) s).2.model = .str "unknown") ∧
    ((gbl_identity (.obj fs) s).2.serial = .str "") := by
  rcases heth with h1 | ⟨gs, h1⟩ <;> rcases hpow with h2 | ⟨ps, h2⟩ <;>
    simp +decide [gbl_identity, odata_of, pyGet, pyLower, Json.truthy,
                  hman, hmod, hser, h1, h2]

theorem C9_identity_defaults_witness :
    ((gbl_identity (.obj []) (initSt (.str "h"))).1 = .cont ()) ∧
    ((gbl_identity (.obj []) (initSt (.str "h"))).2.manufacturer = .str "Custom") ∧
    ((gbl_identity (.obj []) (initSt (.str "h"))).2.model = .str "unknown") ∧
    ((gbl_identity (.obj []) (initSt (.str "h"))).2.serial = .str "") :=
  C9_identity_defaults [] (initSt (.str "h")) rfl rfl rfl (Or.inl rfl) (Or.inl rfl)

/-- System document for the C9 counterexample: a present-but-empty
`Manufacturer` and an advertised `Processors` link. -/
def c9SysDoc : Json :=
  .obj [("Manufacturer", .str ""), ("Processors", .obj [("@odata.id", .str "/p")])]

/-- Environment for the C9 counterexample. -/
def c9cEnv : Env :=
  { get := fun c =>
      match c with
      | .str "/sys" => .resp 200 (some sysColl)
      | .str "/sys0" => .resp 200 (some c9SysDoc)
      | _ => .otherError
    post := fun _ => .connError }

/-- C9 counterexample: with a malformed (present-but-empty) `Manufacturer`,
`get_base_labels` stores `""` instead of the default `"Custom"` and returns
early (line 354), so the advertised `Processors` URL is never resolved —
"populates defaults rather than failing, and discovery is never aborted"
fails for malformed identity fields. -/
theorem C9_counterexample :
    ((get_base_labels c9cEnv discSt).1 = .ok ()) ∧
    ((get_base_labels c9cEnv discSt).2.manufacturer = .str "") ∧
    ((get_base_labels c9cEnv discSt).2.urls.Processors = .str "") ∧
    (jlookup [("Manufacturer", Json.str ""),
              ("Processors", Json.obj [("@odata.id", Json.str "/p")])] "Processors" =
       some (.obj [("@odata.id", .str "/p")])) :=
  ⟨rfl, rfl, rfl, rfl⟩

/-! ## C6 -/

/-- `connect_server` never changes the ResourceMap. -/
theorem connect_server_urls (env : Env) (cmd : Json) (s : St) :
    (connect_server env cmd s).2.urls = s.urls :=
  (connect_server_frame env cmd s).1

/-- `gbl_fetch_system` never changes the `Systems` / `SessionService`
entries. -/
theorem gbl_fetch_system_sysSS (env : Env) (su : Json) (s : St) :
    ((gbl_fetch_system env su s).2.urls.Systems = s.urls.Systems) ∧
    ((gbl_fetch_system env su s).2.urls.SessionService = s.urls.SessionService) := by
  have h := connect_server_urls env su s
  unfold gbl_fetch_system
  rcases hc : connect_server env su s with ⟨r, s₁⟩
  rw [hc] at h
  dsimp only at h
  cases r with
  | exn e => simp [h]
  | ok info => dsimp only; split <;> simp [h]

/-- The system-collection phase never changes the `Systems` /
`SessionService` entries. -/
theorem gbl_fetch_info_sysSS (env : Env) (s : St) :
    ((gbl_fetch_info env s).2.urls.Systems = s.urls.Systems) ∧
    ((gbl_fetch_info env s).2.urls.SessionService = s.urls.SessionService) := by
  have h := connect_server_urls env s.urls.Systems s
  unfold gbl_fetch_info
  rcases hc : connect_server env s.urls.Systems s with ⟨r, s₁⟩
  rw [hc] at h
  dsimp only at h
  cases r with
  | exn e => simp [h]
  | ok systems =>
    dsimp only
    split
    · simp [h]
    · cases pyGet systems "Members" (.arr []) with
      | exn e => simp [h]
      | ok members =>
        dsimp only
        split
        · simp [h]
        · cases pyIdx0 members with
          | exn e => simp [h]
          | ok member0 =>
            dsimp only
            cases pyGet member0 "@odata.id" .null with
            | exn e => simp [h]
            | ok su =>
              dsimp only
              split
              · simp [h]
              · have h2 := gbl_fetch_system_sysSS env su { s₁ with systemsUrl := su }
                constructor
                · exact h2.1.trans (by rw [h])
                · exact h2.2.trans (by rw [h])

/-- The identity phase never changes the `Systems` / `SessionService`
entries. -/
theorem gbl_identity_sysSS (info : Json) (s : St) :
    ((gbl_identity info s).2.urls.Systems = s.urls.Systems) ∧
    ((gbl_identity info s).2.urls.SessionService = s.urls.SessionService) := by
  unfold gbl_identity
  repeat' (first | split | dsimp only)
  all_goals simp

/-- The health/summary phase never changes the `Systems` / `SessionService`
entries. -/
theorem gbl_health_sysSS (info : Json) (s : St) :
    ((gbl_health info s).2.urls.Systems = s.urls.Systems) ∧
    ((gbl_health info s).2.urls.SessionService = s.urls.SessionService) := by
  unfold gbl_health
  repeat' (first | split | dsimp only)
  all_goals simp

/-- The first URL-population block never changes the `Systems` /
`SessionService` entries. -/
theorem gbl_set_urls_v1_sysSS (info : Json) (s : St) :
    ((gbl_set_urls_v1 info s).2.urls.Systems = s.urls.Systems) ∧
    ((gbl_set_urls_v1 info s).2.urls.SessionService = s.urls.SessionService) := by
  unfold gbl_set_urls_v1
  repeat' (first | split | dsimp only)
  all_goals simp

/-- The second (live lines 488-507) URL-population block never changes the
`Systems` / `SessionService` entries. -/
theorem gbl_set_urls_v2_sysSS (info : Json) (s : St) :
    ((gbl_set_urls_v2 info s).2.urls.Systems = s.urls.Systems) ∧
    ((gbl_set_urls_v2 info s).2.urls.SessionService = s.urls.SessionService) := by
  unfold gbl_set_urls_v2
  repeat' (first | split | dsimp only)
  all_goals simp

/-- C6 (amended): during one discovery pass (one call to `get_base_labels`
including both chassis steps), the `Systems` and `SessionService`
ResourceMap entries are never modified, on every branch including
exceptional ones.  The remaining entries are *not* append-only: the live
re-application of the system-level links (source lines 488-507) after the
first chassis step, and chassis links carrying an empty `@odata.id`, can
overwrite a non-empty entry with the empty string mid-pass (see the
counterexample). -/
theorem C6_pass_systems_frame (env : Env) (s : St) :
    ((get_base_labels env s).2.urls.Systems = s.urls.Systems) ∧
    ((get_base_labels env s).2.urls.SessionService = s.urls.SessionService) := by
  unfold get_base_labels
  have h1 := gbl_fetch_info_sysSS env s
  rcases hp1 : gbl_fetch_info env s with ⟨f1, s₁⟩
  rw [hp1] at h1
  dsimp only at h1
  cases f1 with
  | exn e => exact h1
  | ret => exact h1
  | cont info =>
    dsimp only
    have h2 := gbl_identity_sysSS info s₁
    rcases hp2 : gbl_identity info s₁ with ⟨f2, s₂⟩
    rw [hp2] at h2
    dsimp only at h2
    cases f2 with
    | exn e => exact ⟨h2.1.trans h1.1, h2.2.trans h1.2⟩
    | ret => exact ⟨h2.1.trans h1.1, h2.2.trans h1.2⟩
    | cont u =>
      dsimp only
      have h3 := gbl_health_sysSS info s₂
      rcases hp3 : gbl_health info s₂ with ⟨f3, s₃⟩
      rw [hp3] at h3
      dsimp only at h3
      have h12 : s₂.urls.Systems = s.urls.Systems ∧
          s₂.urls.SessionService = s.urls.SessionService :=
        ⟨h2.1.trans h1.1, h2.2.trans h1.2⟩
      cases f3 with
      | exn e => exact ⟨h3.1.trans h12.1, h3.2.trans h12.2⟩
      | ret => exact ⟨h3.1.trans h12.1, h3.2.trans h12.2⟩
      | cont u =>
        dsimp only
        have h4 := gbl_set_urls_v1_sysSS info s₃
        rcases hp4 : gbl_set_urls_v1 info s₃ with ⟨f4, s₄⟩
        rw [hp4] at h4
        dsimp only at h4
        have h13 : s₃.urls.Systems = s.urls.Systems ∧
            s₃.urls.SessionService = s.urls.SessionService :=
          ⟨h3.1.trans h12.1, h3.2.trans h12.2⟩
        cases f4 with
        | exn e => exact ⟨h4.1.trans h13.1, h4.2.trans h13.2⟩
        | ret => exact ⟨h4.1.trans h13.1, h4.2.trans h13.2⟩
        | cont u =>
          dsimp only
          have h14 : s₄.urls.Systems = s.urls.Systems ∧
              s₄.urls.SessionService = s.urls.SessionService :=
            ⟨h4.1.trans h13.1, h4.2.trans h13.2⟩
          have h5 := gcu_frame_all env s₄
          rcases hp5 : get_chassis_urls env s₄ with ⟨r5, s₅⟩
          rw [hp5] at h5
          dsimp only at h5
          cases r5 with
          | exn e => exact ⟨h5.1.trans h14.1, h5.2.1.trans h14.2⟩
          | ok cd =>
            dsimp only
            have h15 : s₅.urls.Systems = s.urls.Systems ∧
                s₅.urls.SessionService = s.urls.SessionService :=
              ⟨h5.1.trans h14.1, h5.2.1.trans h14.2⟩
            have h6 := gbl_set_urls_v2_sysSS info s₅
            rcases hp6 : gbl_set_urls_v2 info s₅ with ⟨f6, s₆⟩
            rw [hp6] at h6
            dsimp only at h6
            cases f6 with
            | exn e => exact ⟨h6.1.trans h15.1, h6.2.trans h15.2⟩
            | ret => exact ⟨h6.1.trans h15.1, h6.2.trans h15.2⟩
            | cont u =>
              dsimp only
              have h16 : s₆.urls.Systems = s.urls.Systems ∧
                  s₆.urls.SessionService = s.urls.SessionService :=
                ⟨h6.1.trans h15.1, h6.2.trans h15.2⟩
              have h7 := gcu_frame_all env s₆
              rcases hp7 : get_chassis_urls env s₆ with ⟨r7, s₇⟩
              rw [hp7] at h7
              dsimp only at h7
              cases r7 with
              | exn e => exact ⟨h7.1.trans h16.1, h7.2.1.trans h16.2⟩
              | ok cd => exact ⟨h7.1.trans h16.1, h7.2.1.trans h16.2⟩

/-- System document for the C6 counterexample: no `Power` link, but a
chassis link. -/
def c6SysDoc : Json :=
  .obj [("Manufacturer", .str "Acme"), ("Model", .str "M1"),
        ("Links", .obj [("Chassis", .arr [.obj [("@odata.id", .str "/ch0")]])])]

/-- Chassis document for the C6 counterexample: advertises a `Power` link. -/
def c6ChDoc : Json := .obj [("Power", .obj [("@odata.id", .str "/ch/p")])]

/-- Environment for the C6 counterexample. -/
def c6cEnv : Env :=
  { get := fun c =>
      match c with
      | .str "/sys" => .resp 200 (some sysColl)
      | .str "/sys0" => .resp 200 (some c6SysDoc)
      | .str "/ch0" => .resp 200 (some c6ChDoc)
      | _ => .otherError
    post := fun _ => .connError }

/-- The state of the C6 counterexample run right after the first chassis
step (the pass so far: fetch, identity, health, first URL block, first
`get_chassis_urls`). -/
def c6MidSt : St :=
  (get_chassis_urls c6cEnv
    (gbl_set_urls_v1 c6SysDoc
      (gbl_health c6SysDoc
        (gbl_identity c6SysDoc (gbl_fetch_info c6cEnv discSt).2).2).2).2).2

/-- The state right after the subsequent (live lines 488-507) re-application
of the system-level links. -/
def c6LateSt : St := (gbl_set_urls_v2 c6SysDoc c6MidSt).2

/-- C6 counterexample: within a single `get_base_labels` pass, the `Power`
entry is `"/ch/p"` (non-empty) after the first chassis step and reverts to
`""` when the live lines 488-507 re-apply the system document (which has no
`Power` link); the second chassis step then restores it.  The pass is
therefore not append-only. -/
theorem C6_counterexample :
    (c6MidSt.urls.Power = .str "/ch/p") ∧
    (c6LateSt.urls.Power = .str "") ∧
    ((get_base_labels c6cEnv discSt).1 = .ok ()) ∧
    ((get_base_labels c6cEnv discSt).2.urls.Power = .str "/ch/p") :=
  ⟨rfl, rfl, rfl, rfl⟩

/-! ## Session-phase lemmas -/

/-- Does a POST attempt fail at the connection level (the class the retry
handler catches — `ConnectTimeout` included, as it subclasses
`ConnectionError`)? -/
def postConnError : PostOutcome → Bool
  | .connError => true
  | _ => false

/-- Does a POST attempt return an HTTP-error (status ≥ 400) response, the
case in which `raise_for_status` raises? -/
def postHttpErr : PostOutcome → Bool
  | .resp pr => if 400 ≤ pr.status then true else false
  | _ => false

/-- Does a POST attempt raise a read timeout? -/
def postReadTimeout : PostOutcome → Bool
  | .readTimeout => true
  | _ => false

/-- The root phase of `get_session` never changes the basic-auth flag, the
up flag or the token. -/
theorem gs_root_frame (env : Env) (s : St) :
    ((gs_root env s).2.basicAuth = s.basicAuth) ∧
    ((gs_root env s).2.redfishUp = s.redfishUp) ∧
    ((gs_root env s).2.authToken = s.authToken) := by
  obtain ⟨-, -, hup, -, -, -, -, -, -, -, htok, hba, -, -, -⟩ :=
    connect_server_frame env (.str "/redfish/v1") s
  unfold gs_root
  rcases hc : connect_server env (.str "/redfish/v1") s with ⟨r, s₁⟩
  rw [hc] at hup htok hba
  dsimp only at hup htok hba
  cases r with
  | exn e => exact ⟨hba, hup, htok⟩
  | ok sr =>
    dsimp only
    repeat' (first | split | dsimp only)
    all_goals simp_all

/-- The SessionService-read phase of `get_session`: it switches to basic
auth exactly when the read returns normally with a recorded HTTP code other
than 200, in which case it returns (`.ret`); it never changes the up flag
or the token. -/
theorem gs_sessRead_spec (env : Env) (s : St) (hb : s.basicAuth = false) :
    (((gs_sessRead env s).2.basicAuth = true) ↔
      ((connect_server env s.urls.SessionService s).1.isOk = true ∧
       (connect_server env s.urls.SessionService s).2.lastHttpCode ≠ 200)) ∧
    ((gs_sessRead env s).2.basicAuth = true → (gs_sessRead env s).1 = .ret) ∧
    ((gs_sessRead env s).2.redfishUp = s.redfishUp) ∧
    ((gs_sessRead env s).2.authToken = s.authToken) := by
  obtain ⟨-, -, hup, -, -, -, -, -, -, -, htok, hba, -, -, -⟩ :=
    connect_server_frame env s.urls.SessionService s
  unfold gs_sessRead
  rcases hc : connect_server env s.urls.SessionService s with ⟨r, s₁⟩
  rw [hc] at hup htok hba
  dsimp only at hup htok hba
  cases r with
  | exn e => simp_all [PyRes.isOk]
  | ok ss =>
    dsimp only [PyRes.isOk]
    split
    · simp_all
    · repeat' (first | split | dsimp only)
      all_goals simp_all

/-- The POST phase of `get_session`: starting with the basic-auth flag off,
the phase sets it exactly when (b) both attempts fail on connection error,
(c) the first attempt returns a status ≥ 400, or (d) the first attempt
times out on read; in each of those cases the phase continues with a
`result` value on which the finish phase is the identity (no raise, up flag
untouched).  The phase never changes the up flag or the token, and when it
continues with a truthy (status < 400) response the flag is unchanged. -/
theorem gs_post_spec (env : Env) (s : St) (hb : s.basicAuth = false) :
    (((gs_post env s).2.basicAuth = true) ↔
      ((postConnError (env.post 1) = true ∧ postConnError (env.post 2) = true) ∨
       postHttpErr (env.post 1) = true ∨ postReadTimeout (env.post 1) = true)) ∧
    ((gs_post env s).2.basicAuth = true →
      ∃ pv, (gs_post env s).1 = .cont pv ∧ ∀ s₂, gs_finish pv s₂ = (.cont (), s₂)) ∧
    ((gs_post env s).2.redfishUp = s.redfishUp) ∧
    ((gs_post env s).2.authToken = s.authToken) ∧
    (∀ pr, (gs_post env s).1 = .cont (.resp pr) → pr.status < 400 →
       (gs_post env s).2.basicAuth = s.basicAuth) := by
  unfold gs_post
  cases h1 : env.post 1 with
  | resp pr =>
    dsimp only [postConnError, postHttpErr, postReadTimeout]
    split
    case isTrue h4 =>
      refine ⟨by simp [h4], ?_, rfl, rfl, ?_⟩
      · intro _
        refine ⟨.resp pr, rfl, fun s₂ => ?_⟩
        unfold gs_finish
        dsimp only
        rw [if_neg (show ¬(pr.status < 400 ∧ (pr.status = 200 ∨ pr.status = 201)) by omega)]
      · intro pr' hpr hlt
        cases hpr
        omega
    case isFalse h4 =>
      refine ⟨by simp [hb, h4], ?_, rfl, rfl, fun _ _ _ => rfl⟩
      intro hx
      rw [hb] at hx
      cases hx
  | readTimeout =>
    dsimp only [postConnError, postHttpErr, postReadTimeout]
    refine ⟨by simp, ?_, rfl, rfl, ?_⟩
    · exact fun _ => ⟨.emptyStr, rfl, fun s₂ => rfl⟩
    · intro pr hpr
      cases hpr
  | connError =>
    cases h2 : env.post 2 with
    | resp pr =>
      dsimp only [postConnError, postHttpErr, postReadTimeout]
      split
      case isTrue h4 =>
        refine ⟨by simp [hb], ?_, rfl, rfl, ?_⟩
        · intro hx
          rw [hb] at hx
          cases hx
        · intro pr' hpr
          cases hpr
      case isFalse h4 =>
        refine ⟨by simp [hb], ?_, rfl, rfl, fun _ _ _ => rfl⟩
        intro hx
        rw [hb] at hx
        cases hx
    | connError =>
      dsimp only [postConnError, postHttpErr, postReadTimeout]
      refine ⟨by simp, ?_, rfl, rfl, ?_⟩
      · exact fun _ => ⟨.emptyStr, rfl, fun s₂ => rfl⟩
      · intro pr hpr
        cases hpr
    | readTimeout =>
      dsimp only [postConnError, postHttpErr, postReadTimeout]
      refine ⟨by simp [hb], ?_, rfl, rfl, ?_⟩
      · intro hx
        rw [hb] at hx
        cases hx
      · intro pr hpr
        cases hpr

/-- The finish phase of `get_session` never changes the basic-auth flag. -/
theorem gs_finish_basicAuth (pv : PostVal) (s : St) :
    (gs_finish pv s).2.basicAuth = s.basicAuth := by
  unfold gs_finish
  repeat' (first | split | dsimp only)

/-- If the up flag enters the finish phase at 0 and leaves it at 1, the
token stored by the phase is truthy. -/
theorem gs_finish_up (pv : PostVal) (s : St) (h0 : s.redfishUp = 0) :
    (gs_finish pv s).2.redfishUp = 1 → (gs_finish pv s).2.authToken.truthy = true := by
  unfold gs_finish
  repeat' (first | split | dsimp only)
  all_goals intro h1
  all_goals simp_all

/-! ## C1 -/

/-- C1 (amended): whenever the scrape's up flag is 1 after `get_session`
runs from the freshly-constructed state, a session token has been obtained
(the stored auth token is truthy — the session is in token-auth mode, not
unauthenticated) and the basic-auth fallback is off; the up flag is never 1
while the token is unset.  (The `Systems` ResourceMap entry has been
assigned from the root document at that point, but it may be the empty
string when the server advertises an empty `@odata.id` — see the
counterexample.) -/
theorem C1_up_flag_token (env : Env) (host : Json) :
    (get_session env (initSt host)).2.redfishUp = 1 →
      ((get_session env (initSt host)).2.authToken.truthy = true ∧
       (get_session env (initSt host)).2.basicAuth = false) := by
  unfold get_session
  have hr := gs_root_frame env (initSt host)
  rcases h1 : gs_root env (initSt host) with ⟨f1, s₁⟩
  rw [h1] at hr
  dsimp only at hr
  have hb1 : s₁.basicAuth = false := by rw [hr.1]; rfl
  have hup1 : s₁.redfishUp = 0 := by rw [hr.2.1]; rfl
  cases f1 with
  | exn e =>
    intro hx
    rw [hup1] at hx
    exact absurd hx (by decide)
  | ret =>
    intro hx
    rw [hup1] at hx
    exact absurd hx (by decide)
  | cont u =>
    dsimp only
    have hs := gs_sessRead_spec env s₁ hb1
    rcases h2 : gs_sessRead env s₁ with ⟨f2, s₂⟩
    rw [h2] at hs
    dsimp only at hs
    have hup2 : s₂.redfishUp = 0 := hs.2.2.1.trans hup1
    cases f2 with
    | exn e =>
      intro hx
      rw [hup2] at hx
      exact absurd hx (by decide)
    | ret =>
      intro hx
      rw [hup2] at hx
      exact absurd hx (by decide)
    | cont u2 =>
      have hb2 : s₂.basicAuth = false := by
        cases hq : s₂.basicAuth
        · rfl
        · cases hs.2.1 hq
      dsimp only
      have hp := gs_post_spec env s₂ hb2
      rcases h3 : gs_post env s₂ with ⟨f3, s₃⟩
      rw [h3] at hp
      dsimp only at hp
      have hup3 : s₃.redfishUp = 0 := hp.2.2.1.trans hup2
      cases f3 with
      | exn e =>
        intro hx
        rw [hup3] at hx
        exact absurd hx (by decide)
      | ret =>
        intro hx
        rw [hup3] at hx
        exact absurd hx (by decide)
      | cont pv =>
        dsimp only
        by_cases hba3 : s₃.basicAuth = true
        · obtain ⟨pv', hpv', hfin⟩ := hp.2.1 hba3
          cases hpv'
          rw [hfin s₃]
          dsimp only
          intro hx
          rw [hup3] at hx
          exact absurd hx (by decide)
        · have hbf : s₃.basicAuth = false := by
            cases hq : s₃.basicAuth
            · rfl
            · exact absurd hq hba3
          have hbfin := gs_finish_basicAuth pv s₃
          have hufin := gs_finish_up pv s₃ hup3
          rcases h4 : gs_finish pv s₃ with ⟨f4, s₄⟩
          rw [h4] at hbfin hufin
          dsimp only at hbfin hufin
          cases f4 with
          | exn e => exact fun hx => ⟨hufin hx, hbfin.trans hbf⟩
          | ret => exact fun hx => ⟨hufin hx, hbfin.trans hbf⟩
          | cont u4 => exact fun hx => ⟨hufin hx, hbfin.trans hbf⟩

/-- The GET side shared by the session environments: a well-formed root
document whose `Systems` link is `sysUrl`, and a SessionService document
with a `Sessions` collection link. -/
def okRootGet (sysUrl : String) : Json → GetOutcome := fun c =>
  match c with
  | .str "/redfish/v1" =>
    .resp 200 (some (.obj [("Systems", .obj [("@odata.id", .str sysUrl)]),
                           ("SessionService", .obj [("@odata.id", .str "/ss")])]))
  | .str "/ss" => .resp 200 (some (.obj [("Sessions", .obj [("@odata.id", .str "/sess")])]))
  | _ => .otherError

/-- A POST response that succeeds with a token and a `Location` header. -/
def okPost : PostOutcome :=
  .resp { status := 200, xAuthToken := some "tok", location := some "/loc", body := none }

/-- Environment for the C1 witness: everything succeeds. -/
def c1wEnv : Env := { get := okRootGet "/sys", post := fun _ => okPost }

theorem C1_up_flag_token_witness :
    ((get_session c1wEnv (initSt (.str "h"))).2.authToken.truthy = true ∧
     (get_session c1wEnv (initSt (.str "h"))).2.basicAuth = false) :=
  C1_up_flag_token c1wEnv (.str "h") rfl

/-- Environment for the C1 counterexample: the root document advertises
`Systems` with an *empty* `@odata.id`, and everything else succeeds. -/
def c1cEnv : Env := { get := okRootGet "", post := fun _ => okPost }

/-- C1 counterexample: the up flag ends at 1 while the `Systems` ResourceMap
entry holds the empty string — the token half of the invariant holds, but
"ResourceMap['Systems'] holds a non-empty URL" does not: nothing in
`get_session` checks the assigned link for non-emptiness. -/
theorem C1_counterexample :
    ((get_session c1cEnv (initSt (.str "h"))).2.redfishUp = 1) ∧
    ((get_session c1cEnv (initSt (.str "h"))).2.urls.Systems = .str "") :=
  ⟨rfl, rfl⟩

/-! ## C2 -/

/-- Environment for the C2 failing input: the service root is well-formed,
and the SessionService read returns HTTP 200 with the truthy JSON body
`{"x": 1}`, which has no `Sessions` key. -/
def c2Env : Env :=
  { get := fun c =>
      match c with
      | .str "/redfish/v1" =>
        .resp 200 (some (.obj [("Systems", .obj [("@odata.id", .str "/sys")]),
                               ("SessionService", .obj [("@odata.id", .str "/ss")])]))
      | .str "/ss" => .resp 200 (some (.obj [("x", .num 1)]))
      | _ => .otherError
    post := fun _ => .connError }

/-- C2: the claim "no error raised during session establishment terminates
the process" is violated by the code — when the SessionService read returns
200 with a body lacking a `Sessions` key, line 126
(`session_service['Sessions']['@odata.id']`) raises an uncaught `KeyError`
that propagates out of `get_session`. -/
theorem C2_get_session_raises :
    (get_session c2Env (initSt (.str "h"))).1 = .exn .keyError :=
  rfl

/-! ## C3 -/

/-- C3 (amended): with the basic-auth flag off, `get_session` enters
basic-auth mode exactly in these cases — the SessionService read returns
normally with a recorded HTTP code other than 200 (and the method then
returns); or the session POST fails on connection error, is retried exactly
once, and the retry also fails on connection error; or the *initial* POST
attempt returns a 4xx/5xx response; or the *initial* POST attempt times out
on read.  In each POST case the method continues into a finish phase that
returns without raising or touching the state.  (A 3xx POST response enters
neither basic auth nor token auth, and an HTTP-error or read timeout on the
*retry* propagates as an uncaught exception — see the counterexample.)
The root and finish phases never set the flag. -/
theorem C3_basic_auth_cases (env : Env) (s : St) (hb : s.basicAuth = false) :
    (((gs_sessRead env s).2.basicAuth = true) ↔
      ((connect_server env s.urls.SessionService s).1.isOk = true ∧
       (connect_server env s.urls.SessionService s).2.lastHttpCode ≠ 200)) ∧
    ((gs_sessRead env s).2.basicAuth = true → (gs_sessRead env s).1 = .ret) ∧
    (((gs_post env s).2.basicAuth = true) ↔
      ((postConnError (env.post 1) = true ∧ postConnError (env.post 2) = true) ∨
       postHttpErr (env.post 1) = true ∨ postReadTimeout (env.post 1) = true)) ∧
    ((gs_post env s).2.basicAuth = true →
      ∃ pv, (gs_post env s).1 = .cont pv ∧ ∀ s₂, gs_finish pv s₂ = (.cont (), s₂)) ∧
    (∀ s₂, (gs_root env s₂).2.basicAuth = s₂.basicAuth) ∧
    (∀ pv s₂, (gs_finish pv s₂).2.basicAuth = s₂.basicAuth) :=
  ⟨(gs_sessRead_spec env s hb).1, (gs_sessRead_spec env s hb).2.1,
   (gs_post_spec env s hb).1, (gs_post_spec env s hb).2.1,
   fun s₂ => (gs_root_frame env s₂).1, gs_finish_basicAuth⟩

/-- Environment for the C3 witness: the first POST attempt times out on
read. -/
def c3wEnv : Env := { get := fun _ => .otherError, post := fun _ => .readTimeout }

theorem C3_basic_auth_cases_witness :
    (gs_post c3wEnv (initSt (.str "h"))).2.basicAuth = true :=
  ((C3_basic_auth_cases c3wEnv (initSt (.str "h")) rfl).2.2.1).mpr
    (Or.inr (Or.inr rfl))

/-- Environment for the C3 counterexample: the POST returns a 302 — a
non-2xx response. -/
def c3cEnv : Env :=
  { get := okRootGet "/sys"
    post := fun _ => .resp { status := 302, xAuthToken := none, location := none, body := none } }

/-- C3 counterexample: a 302 POST response is non-2xx, yet `get_session`
returns normally with the basic-auth flag still off (and the up flag 0):
`raise_for_status` only raises for statuses ≥ 400, so the claim's
"returns a non-2xx response ⇒ basic auth" is false for 3xx responses. -/
theorem C3_counterexample :
    (c3cEnv.post 1 =
       .resp { status := 302, xAuthToken := none, location := none, body := none }) ∧
    ((get_session c3cEnv (initSt (.str "h"))).1 = .ok ()) ∧
    ((get_session c3cEnv (initSt (.str "h"))).2.basicAuth = false) ∧
    ((get_session c3cEnv (initSt (.str "h"))).2.redfishUp = 0) :=
  ⟨rfl, rfl, rfl, rfl⟩

/-! ## C4 -/

/-- C4 (amended): for every 200/201 response to the session-creation POST —
the token is taken from the `X-Auth-Token` header and a falsy (absent or
empty) token marks the scrape failed (up flag 0) and stops establishment;
the session URL is taken from the `Location` header, falling back to the
JSON body's `@odata.id` when the body is a JSON object (an unparseable body
leaves the URL absent, but a body that parses to a non-object raises an
uncaught `AttributeError` — see the counterexample); a still-absent session
URL likewise marks the scrape failed; only when both a truthy token and a
truthy session URL are present does the session enter token-auth mode with
the up flag set to 1. -/
theorem C4_token_session_url (pr : PostResp) (s : St)
    (h2xx : pr.status = 200 ∨ pr.status = 201) :
    ((gs_finish (.resp pr) s).2.authToken = optStr pr.xAuthToken) ∧
    ((optStr pr.xAuthToken).truthy = false →
       gs_finish (.resp pr) s =
         (.ret, { s with authToken := optStr pr.xAuthToken, redfishUp := 0 })) ∧
    ((optStr pr.xAuthToken).truthy = true → (optStr pr.location).truthy = true →
       gs_finish (.resp pr) s =
         (.cont (), { s with authToken := optStr pr.xAuthToken,
                             sessionUrl := optStr pr.location, redfishUp := 1 })) ∧
    ((optStr pr.xAuthToken).truthy = true → (optStr pr.location).truthy = false →
       pr.body = none →
       gs_finish (.resp pr) s =
         (.ret, { s with authToken := optStr pr.xAuthToken, redfishUp := 0 })) ∧
    (∀ bs, (optStr pr.xAuthToken).truthy = true → (optStr pr.location).truthy = false →
       pr.body = some (.obj bs) →
       ((((jlookup bs "@odata.id").getD .null).truthy = true →
          gs_finish (.resp pr) s =
            (.cont (), { s with authToken := optStr pr.xAuthToken,
                                sessionUrl := (jlookup bs "@odata.id").getD .null,
                                redfishUp := 1 })) ∧
        (((jlookup bs "@odata.id").getD .null).truthy = false →
          gs_finish (.resp pr) s =
            (.ret, { s with authToken := optStr pr.xAuthToken, redfishUp := 0 })))) ∧
    (s.redfishUp = 0 → (gs_finish (.resp pr) s).2.redfishUp = 1 →
       ((gs_finish (.resp pr) s).2.authToken.truthy = true ∧
        (gs_finish (.resp pr) s).2.sessionUrl.truthy = true)) := by
  have hcond : (pr.status < 400 ∧ (pr.status = 200 ∨ pr.status = 201)) :=
    ⟨by rcases h2xx with h | h <;> omega, h2xx⟩
  refine ⟨?_, ?_, ?_, ?_, ?_, ?_⟩
  · unfold gs_finish
    dsimp only
    rw [if_pos hcond]
    repeat' (first | split | dsimp only)
  · intro ht
    unfold gs_finish
    dsimp only
    rw [if_pos hcond]
    simp [ht]
  · intro ht hl
    unfold gs_finish
    dsimp only
    rw [if_pos hcond]
    simp [ht, hl]
  · intro ht hl hbody
    unfold gs_finish
    dsimp only
    rw [if_pos hcond]
    simp [ht, hl, hbody]
  · intro bs ht hl hbody
    constructor
    · intro hv
      unfold gs_finish
      dsimp only
      rw [if_pos hcond]
      simp [ht, hl, hbody, hv]
    · intro hv
      unfold gs_finish
      dsimp only
      rw [if_pos hcond]
      simp [ht, hl, hbody, hv]
  · intro h0
    unfold gs_finish
    dsimp only
    rw [if_pos hcond]
    repeat' (first | split | dsimp only)
    all_goals intro h1
    all_goals simp_all

/-- The POST response of the C4 witness: a 201 with token and `Location`. -/
def c4wPr : PostResp :=
  { status := 201, xAuthToken := some "tok", location := some "/loc", body := none }

theorem C4_token_session_url_witness :
    gs_finish (.resp c4wPr) (initSt (.str "h")) =
      (.cont (), { initSt (.str "h") with
                   authToken := optStr c4wPr.xAuthToken,
                   sessionUrl := optStr c4wPr.location, redfishUp := 1 }) :=
  (C4_token_session_url c4wPr (initSt (.str "h")) (Or.inr rfl)).2.2.1 rfl rfl

/-- Environment for the C4 counterexample: the POST returns 201 with a token
but no `Location` header, and its JSON body decodes to an *array*. -/
def c4cEnv : Env :=
  { get := okRootGet "/sys"
    post := fun _ =>
      .resp { status := 201, xAuthToken := some "tok", location := none,
              body := some (.arr [.num 1]) } }

/-- C4 counterexample: with a 201 response whose `Location` header is absent
and whose body parses to a JSON array, `get_session` raises an uncaught
`AttributeError` (from `json_body.get('@odata.id')` on a list) instead of
marking the scrape failed, refuting the claim's "if still absent the scrape
is likewise marked failed" for arbitrary 200/201 responses. -/
theorem C4_counterexample :
    (c4cEnv.post 1 =
       .resp { status := 201, xAuthToken := some "tok", location := none,
               body := some (.arr [.num 1]) }) ∧
    ((get_session c4cEnv (initSt (.str "h"))).1 = .exn .attributeError) :=
  ⟨rfl, rfl⟩

end Redfish
